import Mathlib

/-!
Verification of the beaves proximity-sentry program: a shallow embedding of
the relay controller (controller/gpio.go, controller/switch.go), the radar
event filter (radar package), the rate-limited logger (log package) and the
event loop (main.go), with theorems about debouncing, idempotence, the
allow-list filter, batch coalescing, error propagation and construction.

Conventions of the embedding:
- wall-clock instants are naturals (milliseconds since an arbitrary epoch);
  the zero value of Go's time.Time is modelled as instant 0;
- the physical GPIO level (Go type gpio.Level, defined as a bool with
  High = true, Low = false) is a Bool;
- external effects (host initialisation, pin registry lookup, the electrical
  write, the physical level read, the clock) are supplied as explicit oracle
  arguments, and each operation additionally reports how many electrical
  pin writes (pin.Out invocations) it performed;
- Go errors are a small inductive tree: wrapping with fmt.Errorf("...: %w")
  becomes the wrap constructor and fmt.Errorf("%w; %w") the join constructor.
-/

namespace Beaves

/-- Relay state enumeration from controller/gpio.go: Unknown, On, Off, Error
(in iota order). -/
inductive State where
  | Unknown
  | On
  | Off
  | Error
deriving DecidableEq, Repr

/-- Embedding of State.Level from controller/gpio.go: On maps to High (true), every other
state maps to Low (false). -/
def State.Level : State → Bool
  | .On => true
  | _ => false

/-- Embedding of State.Valid from controller/gpio.go: only On and Off are valid. -/
def State.Valid : State → Bool
  | .On => true
  | .Off => true
  | _ => false

/-- Embedding of GetState from controller/gpio.go. The Go switch matches High and Low and
has a trailing return Unknown, but gpio.Level is a bool, so the two cases are
exhaustive and the trailing return is dead code. -/
def GetState : Bool → State
  | true => .On
  | false => .Off

/-- Go error values produced by the controller, as a tree: leaves are the
underlying failures, wrap is fmt.Errorf with a single %w, join is
fmt.Errorf with two %w verbs separated by a semicolon. -/
inductive GoErr where
  | hostInitFail (terminal : String)
  | pinAbsent (terminal : String)
  | pinOutFail (s : State) (terminal : String)
  | invalidToggle (s : State)
  | wrap (msg : String) (cause : GoErr)
  | join (left : GoErr) (right : GoErr)
deriving DecidableEq, Repr

/-- An error references another error when the other appears in its chain of
wrapped or joined causes (the errors.Is / %w unwrapping relation). -/
def GoErr.references : GoErr → GoErr → Bool
  | .wrap m cause, c => GoErr.wrap m cause == c || cause.references c
  | .join a b, c => GoErr.join a b == c || a.references c || b.references c
  | e, c => e == c

/-- The GPIO struct from controller/gpio.go: claimed terminal name, debounce
window, and the instant of the last successful electrical write (the Go zero
time is instant 0). The pin handle itself is external; its behaviour is
supplied per call as oracle arguments. -/
structure GPIO where
  name : String
  debounce : Nat
  last : Nat
deriving DecidableEq, Repr

/-- Embedding of the Claim method from controller/gpio.go: host.Init, then registry lookup of
the pin by name; on success the terminal name is recorded. The two oracle
booleans say whether host.Init succeeds and whether the pin is present. -/
def GPIO.Claim (g : GPIO) (sn : String) (hostOk : Bool) (pinPresent : Bool) :
    GPIO × Option GoErr :=
  if !hostOk then
    (g, some (.wrap "host failed to initialize while claiming" (.hostInitFail sn)))
  else if !pinPresent then
    (g, some (.pinAbsent sn))
  else
    (⟨sn, g.debounce, g.last⟩, none)

/-- Embedding of the Receive method from controller/gpio.go: read the physical level (oracle)
and convert it with GetState. -/
def GPIO.Receive (g : GPIO) (level : Bool) : State :=
  GetState level

/-- Embedding of the Send method from controller/gpio.go. The request arrives at instant now;
outOk says whether the electrical write pin.Out would succeed. Returns the
updated struct, the returned error, and the number of pin.Out invocations
performed (a failed pin.Out still counts as an invocation). A request
strictly inside the debounce window of the last successful write returns nil
without touching the pin; last is only advanced on a successful write. -/
def GPIO.Send (g : GPIO) (s : State) (now : Nat) (outOk : Bool) :
    GPIO × Option GoErr × Nat :=
  if now < g.last + g.debounce then
    (g, none, 0)
  else if outOk then
    (⟨g.name, g.debounce, now⟩, none, 1)
  else
    (g, some (.wrap "failed to send" (.pinOutFail s g.name)), 1)

/-- The OptoRelay struct from controller/switch.go. -/
structure OptoRelay where
  state : State
  gpio : GPIO
deriving DecidableEq, Repr

/-- Embedding of OptoRelay.On from controller/switch.go: no-op returning nil when already
On; otherwise sleep the settle delay d, then Send On; on Send error set state
to Error and wrap the error, on success set state to On. -/
def OptoRelay.On (r : OptoRelay) (d : Nat) (now : Nat) (outOk : Bool) :
    OptoRelay × Option GoErr × Nat :=
  if r.state = .On then
    (r, none, 0)
  else
    match r.gpio.Send .On now outOk with
    | (g, some e, w) => (⟨.Error, g⟩, some (.wrap "failed to turn on relay" e), w)
    | (g, none, w) => (⟨.On, g⟩, none, w)

/-- Embedding of OptoRelay.Off from controller/switch.go, symmetric to On. -/
def OptoRelay.Off (r : OptoRelay) (d : Nat) (now : Nat) (outOk : Bool) :
    OptoRelay × Option GoErr × Nat :=
  if r.state = .Off then
    (r, none, 0)
  else
    match r.gpio.Send .Off now outOk with
    | (g, some e, w) => (⟨.Error, g⟩, some (.wrap "failed to turn off relay" e), w)
    | (g, none, w) => (⟨.Off, g⟩, none, w)

/-- Embedding of OptoRelay.Toggle from controller/switch.go: fails on an invalid state,
otherwise computes the opposite state and follows the same write path. -/
def OptoRelay.Toggle (r : OptoRelay) (d : Nat) (now : Nat) (outOk : Bool) :
    OptoRelay × Option GoErr × Nat :=
  if !r.state.Valid then
    (r, some (.invalidToggle r.state), 0)
  else
    let toggle := if r.state = .On then State.Off else State.On
    match r.gpio.Send toggle now outOk with
    | (g, some e, w) => (⟨.Error, g⟩, some (.wrap "failed to toggle relay" e), w)
    | (g, none, w) => (⟨toggle, g⟩, none, w)

/-- Primary relay terminal name from controller/gpio.go. -/
def RelayTerminal : String := "GPIO17"

/-- Backup relay terminal name from controller/gpio.go. -/
def RelayBackupTerminal : String := "GPIO27"

/-- Oracle inputs for constructing the actuator: the outcome of host.Init and
the registry lookup for each terminal, and the physical level read by
Receive after a successful claim. -/
structure ClaimEnv where
  primaryHostOk : Bool
  primaryPinPresent : Bool
  backupHostOk : Bool
  backupPinPresent : Bool
  level : Bool
deriving DecidableEq, Repr

/-- Embedding of NewOptoRelaySwitch from controller/switch.go: claim the primary terminal;
on failure claim the backup; if both fail return the zero OptoRelay and a
joined error wrapping both underlying failures; otherwise seed the state from
Receive (the current physical level). The third component records which
terminals were attempted, in order. -/
def NewOptoRelaySwitch (cfgDebounceMs : Nat) (env : ClaimEnv) :
    OptoRelay × Option GoErr × List String :=
  let g : GPIO := ⟨"", cfgDebounceMs, 0⟩
  match g.Claim RelayTerminal env.primaryHostOk env.primaryPinPresent with
  | (g1, none) =>
    (⟨g1.Receive env.level, g1⟩, none, [RelayTerminal])
  | (g1, some err) =>
    let e1 := GoErr.wrap "failed to initialize serial module on default terminal" err
    match g1.Claim RelayBackupTerminal env.backupHostOk env.backupPinPresent with
    | (g2, none) =>
      (⟨g2.Receive env.level, g2⟩, none, [RelayTerminal, RelayBackupTerminal])
    | (g2, some bErr) =>
      let e2 := GoErr.wrap "failed to initialize serial module on backup terminal" bErr
      (⟨.Unknown, ⟨"", 0, 0⟩⟩, some (.join e1 e2), [RelayTerminal, RelayBackupTerminal])

/-- An actor from the radar package: a remote radio identity. The identifier
is the device address string; the display name is the same string. -/
structure Actor where
  id : String
  name : String
deriving DecidableEq, Repr

/-- Lower-case a string character by character (ASCII letters only, exactly
what Char.toLower does), written over the underlying character list so that
it evaluates by kernel reduction. -/
def strLower (s : String) : String :=
  ⟨s.data.map Char.toLower⟩

/-- Embedding of strings.EqualFold as used by Actor.Known. For the ASCII
strings that radio addresses are, Go compares the two strings byte by byte
after lower-casing the ASCII letters, which is lower-cased equality. -/
def equalFold (s t : String) : Bool :=
  strLower s == strLower t

/-- Embedding of Actor.Known from the radar package: scan the configured allow-list and
return true on the first entry that matches under strings.EqualFold. The
configured list config.RuntimeConfig.Actors.Known is passed explicitly. -/
def Actor.Known (a : Actor) (knownIDs : List String) : Bool :=
  knownIDs.any (fun entry => equalFold a.id entry)

/-- Presence action from the radar package (iota order). -/
inductive Action where
  | Entering
  | Exiting
deriving DecidableEq, Repr

/-- Embedding of GetAction from the radar package: connecting means Entering,
disconnecting means Exiting. -/
def GetAction (connected : Bool) : Action :=
  if connected then .Entering else .Exiting

/-- A presence event from the radar package: actor, action, timestamp. -/
structure Event where
  actor : Actor
  action : Action
  epoch : Nat
deriving DecidableEq, Repr

/-- Outcome of one invocation of the connection callback registered by
BTSentry.Search: either the flood guard rejected the signal (disconnect
after a short delay), or the actor was unknown (disconnect scheduled after
the configured grace delay, no event), or an event was handed to the
queue. -/
inductive HandlerResult where
  | floodGuard
  | unknownActor (a : Actor)
  | enq (e : Event)
deriving DecidableEq, Repr

/-- The connection callback of BTSentry.Search: if the queue is at the
configured pool capacity, disconnect (DDoS guard); otherwise resolve the
device address to an Actor; if the actor is not in the allow-list, schedule
a disconnect and produce nothing; otherwise produce an Event with the action
derived from the connected flag and the current instant. -/
def connectHandler (knownIDs : List String) (poolSize : Nat) (queue : List Event)
    (addr : String) (connected : Bool) (now : Nat) : HandlerResult :=
  if queue.length = poolSize then
    .floodGuard
  else
    let actor : Actor := ⟨addr, addr⟩
    if !(actor.Known knownIDs) then
      .unknownActor actor
    else
      .enq ⟨actor, GetAction connected, now⟩

/-- Run a sequence of connection callbacks (address, connected flag,
instant) against the queue, returning the final queue and the list of all
events the radar enqueued, in order. Only an enq outcome changes the
queue. -/
def sentryRun (knownIDs : List String) (poolSize : Nat) :
    List Event → List (String × Bool × Nat) → List Event × List Event
  | queue, [] => (queue, [])
  | queue, (addr, connected, now) :: rest =>
    match connectHandler knownIDs poolSize queue addr connected now with
    | .enq e =>
      let out := sentryRun knownIDs poolSize (queue ++ [e]) rest
      (out.1, e :: out.2)
    | _ => sentryRun knownIDs poolSize queue rest

/-- An entry of the memoized-log map from the log package: window expiry
instant (0 when absent, the Go zero value) and suppressed count. -/
structure Memo where
  exp : Nat
  count : Nat
deriving DecidableEq, Repr

/-- Go map read with zero-value default, for the memoized-log map. -/
def mapGet (m : List (String × Memo)) (k : String) : Memo :=
  match m with
  | [] => ⟨0, 0⟩
  | p :: rest => if p.1 = k then p.2 else mapGet rest k

/-- Go map write, for the memoized-log map. -/
def mapSet (m : List (String × Memo)) (k : String) (v : Memo) : List (String × Memo) :=
  match m with
  | [] => [(k, v)]
  | p :: rest => if p.1 = k then (k, v) :: rest else p :: mapSet rest k v

/-- Embedding of InfoMemoize from the log package. The key is the lower-cased formatted
message. Inside a live window (nonzero expiry in the future) the occurrence
only increments the suppressed counter. Otherwise the line is printed (when
logging is enabled), annotated with the current instant and the previous
window's suppressed count, and the entry is reset to a fresh window of 60
seconds with counter 0. The printed line is returned as (instant, previous
count, message). -/
def InfoMemoize (enabled : Bool) (logs : List (String × Memo)) (msg : String)
    (now : Nat) : List (String × Memo) × Option (Nat × Nat × String) :=
  let key := strLower msg
  let m := mapGet logs key
  if m.exp ≠ 0 ∧ m.exp > now then
    (mapSet logs key ⟨m.exp, m.count + 1⟩, none)
  else
    (mapSet logs key ⟨now + 60000, 0⟩,
     if enabled then some (now, m.count, msg) else none)

/-- Run a sequence of InfoMemoize calls (message, instant), collecting the
printed lines in order. -/
def runInfoMemoize (enabled : Bool) :
    List (String × Memo) → List (String × Nat) →
    List (String × Memo) × List (Nat × Nat × String)
  | logs, [] => (logs, [])
  | logs, (msg, now) :: rest =>
    match InfoMemoize enabled logs msg now with
    | (logs2, printed) =>
      let out := runInfoMemoize enabled logs2 rest
      (out.1, printed.toList ++ out.2)

/-- Which Switch method the event loop invoked on a tick. -/
inductive SwitchCall where
  | onCall
  | offCall
deriving DecidableEq, Repr

/-- One sampling tick of Beaves.Manage from main.go, after the drain: an
empty batch is skipped; otherwise only the last event of the batch is
considered and the actuator is invoked according to its action (On for
Entering, Off for Exiting, with a one second settle delay). An error from
the actuator is logged and the loop continues, so it does not escape the
tick. Returns the updated actuator and the list of Switch invocations made
this tick. -/
def manageTick (r : OptoRelay) (proc : List Event) (now : Nat) (outOk : Bool) :
    OptoRelay × List SwitchCall :=
  match proc.getLast? with
  | none => (r, [])
  | some event =>
    match event.action with
    | .Entering =>
      let out := r.On 1000 now outOk
      (out.1, [.onCall])
    | .Exiting =>
      let out := r.Off 1000 now outOk
      (out.1, [.offCall])

/-- The event loop of Beaves.Manage from main.go over a finite stream of
tick batches; the end of the list is the closure of the event channel, on
which the loop breaks and Manage returns nil. Each tick carries its drained
batch and the oracle inputs of the single possible actuator call. Returns
the final actuator, all Switch invocations, and the returned error. -/
def manageLoop (r : OptoRelay) :
    List (List Event × Nat × Bool) → OptoRelay × List SwitchCall × Option GoErr
  | [] => (r, [], none)
  | (proc, now, outOk) :: rest =>
    let t := manageTick r proc now outOk
    let out := manageLoop t.1 rest
    (out.1, t.2 ++ out.2.1, out.2.2)

/-- Embedding of Beaves.Manage from main.go: if Search fails its error is returned;
otherwise the event loop runs until the channel closes. -/
def Manage (searchErr : Option GoErr) (r : OptoRelay)
    (ticks : List (List Event × Nat × Bool)) :
    OptoRelay × List SwitchCall × Option GoErr :=
  match searchErr with
  | some e => (r, [], some e)
  | none => manageLoop r ticks

/-- Run a sequence of GPIO.Send requests (target state, instant, write
oracle), returning the final struct and the instants of the successful
electrical writes, in order. -/
def runSends (g : GPIO) : List (State × Nat × Bool) → GPIO × List Nat
  | [] => (g, [])
  | (s, t, b) :: rest =>
    let out := g.Send s t b
    let tail := runSends out.1 rest
    (tail.1, (if out.2.1 = none ∧ out.2.2 = 1 then [t] else []) ++ tail.2)

/-- Spec-side notion used by the claims: which Switch method a presence
action selects. -/
def callOf : Action → SwitchCall
  | .Entering => .onCall
  | .Exiting => .offCall

/-- Spec-side notion for the allow-list claim: case-insensitive exact string
comparison. -/
def caseInsensitiveMatch (s t : String) : Prop :=
  strLower s = strLower t

/-- Across any request sequence, the instants of the successful electrical
writes, prefixed with the instant of the last successful write before the
sequence, are separated by at least the debounce window. -/
theorem runSends_chain (reqs : List (State × Nat × Bool)) : ∀ (g : GPIO),
    List.Chain' (fun a b => a + g.debounce ≤ b) (g.last :: (runSends g reqs).2) := by
  induction reqs with
  | nil =>
    intro g
    simp [runSends]
  | cons req rest ih =>
    intro g
    obtain ⟨s, t, b⟩ := req
    by_cases h1 : t < g.last + g.debounce
    · simpa [runSends, GPIO.Send, h1] using ih g
    · cases b with
      | false =>
        simpa [runSends, GPIO.Send, h1] using ih g
      | true =>
        have h2 := ih ⟨g.name, g.debounce, t⟩
        simp [runSends, GPIO.Send, h1]
        exact ⟨by omega, by simpa using h2⟩

/-- C1: a relay write requested strictly inside the debounce window of the
prior successful write performs zero hardware writes, returns nil, and leaves
the struct unchanged (nothing queued or retried); any request that does reach
the pin arrives at least a debounce window after the prior successful write,
so consecutive successful writes are always at least the debounce window
apart. -/
theorem relay_send_debounce (g : GPIO) (s : State) (now : Nat) (outOk : Bool)
    (reqs : List (State × Nat × Bool)) :
    (now < g.last + g.debounce → g.Send s now outOk = (g, none, 0))
    ∧ ((g.Send s now outOk).2.2 ≠ 0 → g.last + g.debounce ≤ now)
    ∧ List.Chain' (fun a b => a + g.debounce ≤ b) (g.last :: (runSends g reqs).2) := by
  refine ⟨?_, ?_, runSends_chain reqs g⟩
  · intro h
    simp [ GPIO.Send, h]
  · intro h
    by_cases h1 : now < g.last + g.debounce
    · simp [ GPIO.Send, h1] at h
    · omega

/-- Witness for C1 at a concrete input: a request at instant 120, inside the
debounce window [50, 150) of the prior successful write, is dropped without
an error and without a pin write. -/
theorem relay_send_debounce_witness :
    GPIO.Send ⟨"GPIO17", 100, 50⟩ .On 120 true = (⟨"GPIO17", 100, 50⟩, none, 0) :=
  (relay_send_debounce ⟨"GPIO17", 100, 50⟩ .On 120 true []).1 (by decide)

/-- Every event the radar enqueues over any callback sequence, from any
starting queue, carries an actor that passes the allow-list check. -/
theorem sentryRun_known (knownIDs : List String) (poolSize : Nat) :
    ∀ (cbs : List (String × Bool × Nat)) (q : List Event),
      ∀ e ∈ (sentryRun knownIDs poolSize q cbs).2, e.actor.Known knownIDs = true := by
  intro cbs
  induction cbs with
  | nil =>
    intro q e he
    simp [sentryRun] at he
  | cons cb rest ih =>
    intro q e he
    obtain ⟨addr, connected, now⟩ := cb
    by_cases hfull : q.length = poolSize
    · simp only [sentryRun, connectHandler, if_pos hfull] at he
      exact ih q e he
    · by_cases hknown : Actor.Known ⟨addr, addr⟩ knownIDs = true
      · simp only [sentryRun, connectHandler, if_neg hfull, hknown,
          Bool.not_true, Bool.false_eq_true, if_false, List.mem_cons] at he
        rcases he with he | he
        · subst he
          exact hknown
        · exact ih _ e he
      · have hk : Actor.Known ⟨addr, addr⟩ knownIDs = false := by
          revert hknown
          cases Actor.Known ⟨addr, addr⟩ knownIDs <;> simp
        simp only [sentryRun, connectHandler, if_neg hfull, hk,
          Bool.not_false, if_true] at he
        exact ih q e he

/-- C2: over every sequence of connect/disconnect callbacks, every event the
radar enqueues carries an actor passing the allow-list membership check; a
callback for an identifier outside the allow-list never produces an event,
and when the queue is below capacity it yields the unknown-actor outcome
(the device is disconnected after the grace delay). -/
theorem radar_allowlist_filter (knownIDs : List String) (poolSize : Nat)
    (q0 : List Event) (cbs : List (String × Bool × Nat))
    (queue : List Event) (addr : String) (connected : Bool) (now : Nat) :
    (∀ e ∈ (sentryRun knownIDs poolSize q0 cbs).2, e.actor.Known knownIDs = true)
    ∧ (Actor.Known ⟨addr, addr⟩ knownIDs = false →
        (∀ e, connectHandler knownIDs poolSize queue addr connected now ≠ .enq e)
        ∧ (queue.length ≠ poolSize →
            connectHandler knownIDs poolSize queue addr connected now
              = .unknownActor ⟨addr, addr⟩)) := by
  refine ⟨sentryRun_known knownIDs poolSize cbs q0, ?_⟩
  intro hk
  constructor
  · intro e
    by_cases hfull : queue.length = poolSize
    · simp [connectHandler, hfull]
    · simp [connectHandler, hfull, hk]
  · intro hfull
    simp [connectHandler, hfull, hk]

/-- Witness for C2 at a concrete input: with allow-list ["AA"], a callback
for the unknown identifier "zz" on a non-full queue yields the unknown-actor
disconnect outcome and no event. -/
theorem radar_allowlist_filter_witness :
    connectHandler ["AA"] 2 [] "zz" true 7 = .unknownActor ⟨"zz", "zz"⟩ :=
  ((radar_allowlist_filter ["AA"] 2 [] [] [] "zz" true 7).2 (by decide)).2 (by decide)

/-- C3: the allow-list membership check returns true exactly when some entry
of the configured list equals the identifier under case-insensitive exact
comparison. -/
theorem known_iff_case_insensitive (a : Actor) (l : List String) :
    a.Known l = true ↔ ∃ entry ∈ l, caseInsensitiveMatch a.id entry := by
  simp [Actor.Known, equalFold, caseInsensitiveMatch, List.any_eq_true]

/-- Witness for C3 at a concrete input: "aa:bb" is recognized against the
configured entry "AA:BB". -/
theorem known_iff_case_insensitive_witness :
    Actor.Known ⟨"aa:bb", "aa:bb"⟩ ["AA:BB"] = true :=
  (known_iff_case_insensitive ⟨"aa:bb", "aa:bb"⟩ ["AA:BB"]).mpr
    ⟨"AA:BB", by decide, by simp only [caseInsensitiveMatch]; decide⟩

/-- C4: a sampling tick with an empty drained batch performs no actuator
invocation; a tick with a non-empty batch performs exactly one invocation,
the one selected by the action of the last event of the batch, and the whole
tick behaves as if the earlier events of the batch were absent. -/
theorem manage_tick_last_event (r : OptoRelay) (proc : List Event)
    (now : Nat) (outOk : Bool) :
    (proc = [] → manageTick r proc now outOk = (r, []))
    ∧ (∀ es e, proc = es ++ [e] →
        (manageTick r proc now outOk).2 = [callOf e.action]
        ∧ manageTick r proc now outOk = manageTick r [e] now outOk) := by
  constructor
  · intro h
    subst h
    simp [manageTick]
  · intro es e h
    subst h
    cases ha : e.action <;>
      simp [manageTick, List.getLast?_concat, callOf, ha]

/-- Witness for C4 at a concrete input: a two-event batch flapping
Exiting-then-Entering invokes only On. -/
theorem manage_tick_last_event_witness :
    (manageTick ⟨.Off, ⟨"GPIO17", 100, 0⟩⟩
      [⟨⟨"a", "a"⟩, .Exiting, 5⟩, ⟨⟨"a", "a"⟩, .Entering, 6⟩] 500 true).2
      = [SwitchCall.onCall] :=
  ((manage_tick_last_event ⟨.Off, ⟨"GPIO17", 100, 0⟩⟩
      [⟨⟨"a", "a"⟩, .Exiting, 5⟩, ⟨⟨"a", "a"⟩, .Entering, 6⟩] 500 true).2
    [⟨⟨"a", "a"⟩, .Exiting, 5⟩] ⟨⟨"a", "a"⟩, .Entering, 6⟩ rfl).1

/-- C5: On and Off are idempotent no-ops (nil result, zero pin writes,
actuator unchanged) when the state already equals the target; consequently
two consecutive On calls on an actuator that is not On, whose first write is
outside the debounce window and electrically succeeds, perform exactly one
pin write in total. -/
theorem on_off_idempotent (r : OptoRelay) (d now d2 now2 : Nat)
    (outOk outOk2 : Bool) :
    (r.state = .On → r.On d now outOk = (r, none, 0))
    ∧ (r.state = .Off → r.Off d now outOk = (r, none, 0))
    ∧ (r.state ≠ .On → r.gpio.last + r.gpio.debounce ≤ now → outOk = true →
        (r.On d now outOk).2.1 = none
        ∧ (r.On d now outOk).2.2 + (((r.On d now outOk).1).On d2 now2 outOk2).2.2 = 1) := by
  refine ⟨?_, ?_, ?_⟩
  · intro h
    simp [OptoRelay.On, h]
  · intro h
    simp [OptoRelay.Off, h]
  · intro h1 h2 h3
    subst h3
    have hnd : ¬(now < r.gpio.last + r.gpio.debounce) := by omega
    simp [OptoRelay.On, h1, GPIO.Send, hnd]

/-- Witness for C5 at a concrete input: from Off, with the debounce window
already elapsed and a succeeding write, two On calls in a row perform one
pin write in total and the first returns nil. -/
theorem on_off_idempotent_witness :
    ((⟨.Off, ⟨"GPIO17", 100, 0⟩⟩ : OptoRelay).On 1000 200 true).2.1 = none
    ∧ ((⟨.Off, ⟨"GPIO17", 100, 0⟩⟩ : OptoRelay).On 1000 200 true).2.2
      + ((((⟨.Off, ⟨"GPIO17", 100, 0⟩⟩ : OptoRelay).On 1000 200 true).1).On 1000 210 true).2.2 = 1 :=
  (on_off_idempotent ⟨.Off, ⟨"GPIO17", 100, 0⟩⟩ 1000 200 1000 210 true true).2.2
    (by decide) (by decide) rfl

/-- C6: constructing the actuator attempts the primary terminal first and
attempts the backup only when the primary claim fails; with both failing,
the surfaced error is the join of wrappings of the two underlying failures
and references each of them; with either claim succeeding, no error is
returned and the initial state is seeded from the physical level that was
read, not assumed Off. -/
theorem claim_fallback (cfg : Nat) (env : ClaimEnv) :
    ((env.primaryHostOk && env.primaryPinPresent) = true →
        (NewOptoRelaySwitch cfg env).2.2 = [RelayTerminal]
        ∧ (NewOptoRelaySwitch cfg env).2.1 = none
        ∧ (NewOptoRelaySwitch cfg env).1.state = GetState env.level)
    ∧ ((env.primaryHostOk && env.primaryPinPresent) = false →
        (NewOptoRelaySwitch cfg env).2.2 = [RelayTerminal, RelayBackupTerminal])
    ∧ ((env.primaryHostOk && env.primaryPinPresent) = false →
        (env.backupHostOk && env.backupPinPresent) = true →
        (NewOptoRelaySwitch cfg env).2.1 = none
        ∧ (NewOptoRelaySwitch cfg env).1.state = GetState env.level)
    ∧ ((env.primaryHostOk && env.primaryPinPresent) = false →
        (env.backupHostOk && env.backupPinPresent) = false →
        ∃ err pe be,
          (NewOptoRelaySwitch cfg env).2.1 = some err
          ∧ err = .join (.wrap "failed to initialize serial module on default terminal" pe)
                        (.wrap "failed to initialize serial module on backup terminal" be)
          ∧ err.references pe = true
          ∧ err.references be = true) := by
  obtain ⟨p1, p2, b1, b2, lv⟩ := env
  cases p1 <;> cases p2 <;> cases b1 <;> cases b2 <;>
    simp [NewOptoRelaySwitch, GPIO.Claim, GPIO.Receive] <;>
    exact ⟨_, _, ⟨rfl, rfl⟩, by decide, by decide⟩

/-- Witness for C6 at a concrete input: primary claim fails on a missing
pin, backup succeeds, so both terminals were attempted in order and no error
is surfaced. -/
theorem claim_fallback_witness :
    (NewOptoRelaySwitch 100 ⟨true, false, true, true, false⟩).2.2
      = [RelayTerminal, RelayBackupTerminal] :=
  (claim_fallback 100 ⟨true, false, true, true, false⟩).2.1 (by decide)

/-- C7: starting from a fresh logger state, logging the identical formatted
message five times inside one suppression window prints exactly one line;
the first occurrence at or after the window expiry prints immediately,
annotated with the previous window's suppressed count of 4, and afterwards
the entry for the lower-cased key holds a reset counter of 0 and a new
window expiring 60 seconds after that occurrence. -/
theorem info_memoize_window (msg : String) (t1 t2 t3 t4 t5 t6 : Nat)
    (h2 : t2 < t1 + 60000) (h3 : t3 < t1 + 60000) (h4 : t4 < t1 + 60000)
    (h5 : t5 < t1 + 60000) (h6 : t1 + 60000 ≤ t6) :
    (runInfoMemoize true [] [(msg, t1), (msg, t2), (msg, t3), (msg, t4), (msg, t5)]).2
      = [(t1, 0, msg)]
    ∧ (runInfoMemoize true []
        [(msg, t1), (msg, t2), (msg, t3), (msg, t4), (msg, t5), (msg, t6)]).2
      = [(t1, 0, msg), (t6, 4, msg)]
    ∧ mapGet (runInfoMemoize true []
        [(msg, t1), (msg, t2), (msg, t3), (msg, t4), (msg, t5), (msg, t6)]).1
        (strLower msg) = ⟨t6 + 60000, 0⟩ := by
  have e0 : t1 + 60000 ≠ 0 := by omega
  have h6' : ¬ (t1 + 60000 > t6) := by omega
  have s1 : InfoMemoize true [] msg t1
      = ([(strLower msg, ⟨t1 + 60000, 0⟩)], some (t1, 0, msg)) := by
    simp [InfoMemoize, mapGet, mapSet]
  have step : ∀ t c, t < t1 + 60000 →
      InfoMemoize true [(strLower msg, ⟨t1 + 60000, c⟩)] msg t
        = ([(strLower msg, ⟨t1 + 60000, c + 1⟩)], none) := by
    intro t c ht
    simp [InfoMemoize, mapGet, mapSet, e0, ht]
  have s6 : InfoMemoize true [(strLower msg, ⟨t1 + 60000, 4⟩)] msg t6
      = ([(strLower msg, ⟨t6 + 60000, 0⟩)], some (t6, 4, msg)) := by
    simp [InfoMemoize, mapGet, mapSet, h6']
  have r5 : runInfoMemoize true [] [(msg, t1), (msg, t2), (msg, t3), (msg, t4), (msg, t5)]
      = ([(strLower msg, ⟨t1 + 60000, 4⟩)], [(t1, 0, msg)]) := by
    simp only [runInfoMemoize, s1, step t2 0 h2, step t3 1 h3, step t4 2 h4,
      step t5 3 h5, Nat.reduceAdd, Option.toList_some, Option.toList_none,
      List.append_nil, List.nil_append, List.cons_append]
  have r6 : runInfoMemoize true []
      [(msg, t1), (msg, t2), (msg, t3), (msg, t4), (msg, t5), (msg, t6)]
      = ([(strLower msg, ⟨t6 + 60000, 0⟩)], [(t1, 0, msg), (t6, 4, msg)]) := by
    simp only [runInfoMemoize, s1, step t2 0 h2, step t3 1 h3, step t4 2 h4,
      step t5 3 h5, s6, Nat.reduceAdd, Option.toList_some, Option.toList_none,
      List.append_nil, List.nil_append, List.cons_append]
  refine ⟨by rw [r5], by rw [r6], by rw [r6]; simp [mapGet]⟩

/-- Witness for C7 at a concrete input: message "m" logged at instants 10,
20, 30, 40, 50 prints once, and the occurrence at 60110 prints with a
suppressed count of 4. -/
theorem info_memoize_window_witness :
    (runInfoMemoize true [] [("m", 10), ("m", 20), ("m", 30), ("m", 40), ("m", 50)]).2
      = [(10, 0, "m")]
    ∧ (runInfoMemoize true []
        [("m", 10), ("m", 20), ("m", 30), ("m", 40), ("m", 50), ("m", 60110)]).2
      = [(10, 0, "m"), (60110, 4, "m")] := by
  have h := info_memoize_window "m" 10 20 30 40 50 60110
    (by omega) (by omega) (by omega) (by omega) (by omega)
  exact ⟨h.1, h.2.1⟩

/-- C8: a call that changes state but whose underlying write falls inside
the debounce window still returns nil and records the target state even
though zero hardware writes occurred, for On, Off and Toggle alike. -/
theorem debounced_state_drift (r : OptoRelay) (d now : Nat) (outOk : Bool)
    (hdeb : now < r.gpio.last + r.gpio.debounce) :
    (r.state ≠ .On → r.On d now outOk = (⟨.On, r.gpio⟩, none, 0))
    ∧ (r.state ≠ .Off → r.Off d now outOk = (⟨.Off, r.gpio⟩, none, 0))
    ∧ (r.state.Valid = true →
        r.Toggle d now outOk
          = (⟨if r.state = .On then State.Off else State.On, r.gpio⟩, none, 0)) := by
  refine ⟨?_, ?_, ?_⟩
  · intro h
    simp [OptoRelay.On, h, GPIO.Send, hdeb]
  · intro h
    simp [OptoRelay.Off, h, GPIO.Send, hdeb]
  · intro h
    simp [OptoRelay.Toggle, h, GPIO.Send, hdeb]

/-- Witness for C8 at a concrete input: from Off, inside the debounce window
[50, 150), On returns nil and sets the state to On with zero pin writes. -/
theorem debounced_state_drift_witness :
    (⟨.Off, ⟨"GPIO17", 100, 50⟩⟩ : OptoRelay).On 1000 60 true
      = (⟨.On, ⟨"GPIO17", 100, 50⟩⟩, none, 0) :=
  (debounced_state_drift ⟨.Off, ⟨"GPIO17", 100, 50⟩⟩ 1000 60 true (by decide)).1
    (by decide)

/-- C9: once Search has succeeded, closure of the event channel (the end of
the tick stream) makes Manage leave the event loop and return nil; actuator
errors inside the loop are logged and never returned, so stream closure is
always surfaced as an error-free return. -/
theorem manage_returns_nil_on_closure (r : OptoRelay)
    (ticks : List (List Event × Nat × Bool)) :
    (Manage none r ticks).2.2 = none := by
  show (manageLoop r ticks).2.2 = none
  induction ticks generalizing r with
  | nil => rfl
  | cons t rest ih =>
    obtain ⟨proc, now, outOk⟩ := t
    simpa [manageLoop] using ih (manageTick r proc now outOk).1

/-- Toggle on a valid state never reports the invalid-state error: its error,
if any, is the wrapped write failure. -/
theorem toggle_no_invalid (r : OptoRelay) (hv : r.state.Valid = true)
    (d now : Nat) (b : Bool) (s : State) :
    (r.Toggle d now b).2.1 ≠ some (.invalidToggle s) := by
  by_cases h1 : now < r.gpio.last + r.gpio.debounce
  · simp [OptoRelay.Toggle, hv, GPIO.Send, h1]
  · cases b <;> simp [OptoRelay.Toggle, hv, GPIO.Send, h1]

/-- When construction reports no error, the initial state is the one read
from the physical level. -/
theorem newSwitch_state (cfg : Nat) (env : ClaimEnv)
    (h : (NewOptoRelaySwitch cfg env).2.1 = none) :
    (NewOptoRelaySwitch cfg env).1.state = GetState env.level := by
  obtain ⟨p1, p2, b1, b2, lv⟩ := env
  cases p1 <;> cases p2 <;> cases b1 <;> cases b2 <;>
    simp [NewOptoRelaySwitch, GPIO.Claim, GPIO.Receive] at h ⊢

/-- C10: whenever the constructor returns without error, the seeded state is
On or Off (a binary level never maps to Unknown or Error), it satisfies the
validity predicate, and a first Toggle never fails the invalid-state
check. -/
theorem seeded_state_valid (cfg : Nat) (env : ClaimEnv)
    (h : (NewOptoRelaySwitch cfg env).2.1 = none) :
    (NewOptoRelaySwitch cfg env).1.state.Valid = true
    ∧ ((NewOptoRelaySwitch cfg env).1.state = .On
        ∨ (NewOptoRelaySwitch cfg env).1.state = .Off)
    ∧ (∀ d now b s,
        (((NewOptoRelaySwitch cfg env).1).Toggle d now b).2.1
          ≠ some (.invalidToggle s)) := by
  have hs := newSwitch_state cfg env h
  have hv : (NewOptoRelaySwitch cfg env).1.state.Valid = true := by
    rw [hs]
    cases env.level <;> simp [GetState, State.Valid]
  refine ⟨hv, ?_, ?_⟩
  · rw [hs]
    cases env.level <;> simp [GetState]
  · intro d now b s
    exact toggle_no_invalid _ hv d now b s

/-- Witness for C10 at a concrete input: with both claims succeeding and the
pin reading Low, the seeded state is valid. -/
theorem seeded_state_valid_witness :
    (NewOptoRelaySwitch 100 ⟨true, true, true, true, false⟩).1.state.Valid = true :=
  (seeded_state_valid 100 ⟨true, true, true, true, false⟩ (by decide)).1

end Beaves
